import Mathlib

/-!
Verification of the segwise-assignment LinkedIn scraping server.

The development shallowly embeds the Go sources:
  - `sgw-server/pkg/scraper/scraper.go` (login state machine, `NewScraper`,
    the extraction steps and the DOM-query scripts they evaluate),
  - `sgw-server/server/handler.go` (the `Home` HTTP handler and its
    post-count gate),
  - `sgw-server/pkg/utils` (`GetUsedParams`).

Browser effects (navigation, DOM queries, `chromedp.Run` failures) are
modelled by explicit oracle records: a `FeedItem` is what one
`.feed-shared-update-v2` element yields to the evaluated script, a
`LoginEnv` records the page addresses observed after form submission, and
the boolean error flags stand for the failure of the corresponding
`chromedp.Run` call.  The Go control flow is then translated statement by
statement into total Lean functions.
-/

namespace Segwise

/-- Embeds Go `strings.HasPrefix` on rune lists: `startsWithL sub l` is true
iff `sub` is an initial segment of `l`. -/
def startsWithL : List Char → List Char → Bool
  | [], _ => true
  | _ :: _, [] => false
  | a :: as, b :: bs => a == b && startsWithL as bs

/-- Helper for `strContains`: does `sub` occur as a contiguous run of `l`? -/
def hasSubList : List Char → List Char → Bool
  | sub, [] => startsWithL sub []
  | sub, b :: bs => startsWithL sub (b :: bs) || hasSubList sub bs

/-- Embeds Go `strings.Contains(s, sub)` (and JS `String.includes`):
true iff `sub` occurs contiguously inside `s`. -/
def strContains (s sub : String) : Bool :=
  hasSubList sub.data s.data

/-- Strip leading and trailing whitespace from a rune list. -/
def trimChars (l : List Char) : List Char :=
  ((l.dropWhile Char.isWhitespace).reverse.dropWhile Char.isWhitespace).reverse

/-- Embeds JS `String.prototype.trim()`: drop leading and trailing
whitespace. -/
def jsTrim (s : String) : String :=
  String.mk (trimChars s.data)

/-- `Post` record of `pkg/scraper/scraper.go`: the current source keeps only
the text content of a post. -/
structure Post where
  content : String
  deriving Repr, DecidableEq

/-- `Experience` record of `pkg/scraper/scraper.go`. -/
structure Experience where
  company : String
  duration : String
  title : String
  deriving Repr, DecidableEq

/-- `Education` record of `pkg/scraper/scraper.go`. -/
structure Education where
  institute : String
  major : String
  duration : String
  deriving Repr, DecidableEq

/-- `Profile` record of `pkg/scraper/scraper.go`: the accumulator the
extraction steps write into.  Go zero value: all fields empty. -/
structure Profile where
  name : String := ""
  location : String := ""
  about : String := ""
  experience : List Experience := []
  education : List Education := []
  posts : List Post := []
  deriving Repr, DecidableEq

/-- What one `.feed-shared-update-v2` DOM element yields to the script
evaluated by `GetRecentPosts`.  `header` is the text of the
`.update-components-header__text-view` child when that child exists;
`showMore` and `breakWords` are the raw text contents of the two
content selectors inside the `.feed-shared-update-v2__description-wrapper`
child, `wrapperPresent` records whether that wrapper child exists at all. -/
structure FeedItem where
  header : Option String := none
  wrapperPresent : Bool := true
  showMore : Option String := none
  breakWords : Option String := none
  deriving Repr, DecidableEq

/-- JS `el?.textContent?.trim() || ''`: empty string when the element is
absent, trimmed text otherwise. -/
def jsText (o : Option String) : String :=
  match o with
  | some t => jsTrim t
  | none => ""

/-- JS `a?.textContent?.trim() || b?.textContent?.trim() || ''`: the first
selector's trimmed text when non-empty (JS `||` treats `''` and
`undefined` as falsy), otherwise the second's, otherwise `''`. -/
def jsFirst (a b : Option String) : String :=
  if jsText a = "" then jsText b else jsText a

/-- The part of the `GetRecentPosts` map callback after the repost check:
drop the item when the description wrapper is missing, compute the
content with the show-more selector falling back to the break-words
selector, and drop the item when the content is empty. -/
def extractBody (it : FeedItem) : Option Post :=
  if it.wrapperPresent then
    if jsFirst it.showMore it.breakWords = "" then none
    else some ⟨jsFirst it.showMore it.breakWords⟩
  else none

/-- JS `header && header.textContent.includes('reposted this')`: the item
has a header element and its text contains the repost marker. -/
def headerIsRepost (it : FeedItem) : Bool :=
  match it.header with
  | some h => strContains h "reposted this"
  | none => false

/-- One iteration of the `map` callback in `GetRecentPosts`
(`pkg/scraper/scraper.go`): drop the item when its header exists and
contains the repost marker, then run the body. -/
def extractPost (it : FeedItem) : Option Post :=
  if headerIsRepost it then none else extractBody it

/-- The whole script evaluated by `GetRecentPosts`:
`map(...).filter(item => item !== null).slice(0, 5)`. -/
def getRecentPostsList (items : List FeedItem) : List Post :=
  (items.filterMap extractPost).take 5

/-- What one `.pvs-list__paged-list-item` element yields to the script of
`GetExperiences`: `present` records whether the
`profile-component-entity` child exists; the other fields are the raw
text contents of the title (two fallback selectors), company and
duration selectors. -/
structure ExpItem where
  present : Bool := true
  titleA : Option String := none
  titleB : Option String := none
  company : Option String := none
  duration : Option String := none
  deriving Repr, DecidableEq

/-- One iteration of the `map` callback in `GetExperiences`. -/
def extractExp (it : ExpItem) : Option Experience :=
  if it.present then
    some { title := jsFirst it.titleA it.titleB
           company := jsText it.company
           duration := jsText it.duration }
  else none

/-- The whole script evaluated by `GetExperiences`. -/
def getExperiencesList (items : List ExpItem) : List Experience :=
  items.filterMap extractExp

/-- What one `.pvs-list__paged-list-item` element yields to the script of
`GetEducation`. -/
structure EduItem where
  present : Bool := true
  institute : Option String := none
  major : Option String := none
  duration : Option String := none
  deriving Repr, DecidableEq

/-- One iteration of the `map` callback in `GetEducation`. -/
def extractEdu (it : EduItem) : Option Education :=
  if it.present then
    some { institute := jsText it.institute
           major := jsText it.major
           duration := jsText it.duration }
  else none

/-- The whole script evaluated by `GetEducation`. -/
def getEducationList (items : List EduItem) : List Education :=
  items.filterMap extractEdu

/-- `GetRecentPosts` of `pkg/scraper/scraper.go` as a step on the profile:
`runErr` is the failure of the `chromedp.Run` (navigate + evaluate) call.
On failure the profile is untouched and the wrapped error is returned;
otherwise `Profile.Posts` is overwritten with the script's result — an
empty list is stored as a success, there is no emptiness check. -/
def GetRecentPostsStep (runErr : Bool) (items : List FeedItem)
    (p : Profile) : Except String Profile :=
  if runErr then .error "failed to extract posts"
  else .ok { p with posts := getRecentPostsList items }

/-- `GetNameAndLocation` of `pkg/scraper/scraper.go`: one `chromedp.Run`
extracts both texts; on success they are stored into `Name` and
`Location`. -/
def GetNameAndLocationStep (runErr : Bool) (name location : String)
    (p : Profile) : Except String Profile :=
  if runErr then .error "failed to get name and location"
  else .ok { p with name := name, location := location }

/-- `GetExperiences` of `pkg/scraper/scraper.go`: a navigation run, then an
evaluation run; on success the extracted list is stored into
`Profile.Experience`. -/
def GetExperiencesStep (navErr evalErr : Bool) (items : List ExpItem)
    (p : Profile) : Except String Profile :=
  if navErr then .error "navigation failed"
  else if evalErr then .error "failed to extract experiences"
  else .ok { p with experience := getExperiencesList items }

/-- `GetEducation` of `pkg/scraper/scraper.go`. -/
def GetEducationStep (navErr evalErr : Bool) (items : List EduItem)
    (p : Profile) : Except String Profile :=
  if navErr then .error "navigation failed"
  else if evalErr then .error "failed to extract education"
  else .ok { p with education := getEducationList items }

/-- `GetAbout` of `pkg/scraper/scraper.go`: stores the evaluated text into
`Profile.About`. -/
def GetAboutStep (runErr : Bool) (about : String)
    (p : Profile) : Except String Profile :=
  if runErr then .error "failed to get about"
  else .ok { p with about := about }

/-- Oracle for one run of `login` (`pkg/scraper/scraper.go`): the outcomes
of the three `chromedp.Run` calls in source order.  `submitErr` is the
error of the navigate-and-submit run; `locErr` the error of the first
`Location` read; `url1` the address the browser reports after submission;
`locErr2` the error of the `Location` read after the human signal; `url2`
the address reported then.  Error fields hold the opaque chromedp error
text, `none` meaning the call succeeded. -/
structure LoginEnv where
  submitErr : Option String := none
  locErr : Option String := none
  url1 : String := ""
  locErr2 : Option String := none
  url2 : String := ""
  deriving Repr, DecidableEq

/-- Result of one `login` run.  `.ok b` is the successful return, with
`b = true` exactly when the run went through the challenge branch and its
blocking wait for the manual human signal (`bufio` read on stdin) before
re-checking the address. -/
def login (headless : Bool) (env : LoginEnv) : Except String Bool :=
  match env.submitErr with
  | some e => .error e
  | none =>
    match env.locErr with
    | some e => .error e
    | none =>
      if strContains env.url1 "checkpoint/challenge" then
        if headless then
          .error "verification required, please retry with headless=false"
        else
          match env.locErr2 with
          | some e => .error e
          | none =>
            if strContains env.url2 "checkpoint/challenge" then
              .error "verification was not completed successfully"
            else .ok true
      else .ok false

/-- `NewScraper` of `pkg/scraper/scraper.go`, with the two possible login
runs driven by the oracles `env1` (first, headless-flagged-false session)
and `env2` (the replacement visible session created when the first error
mentions verification).  `.ok` stands for the `(s, nil)` returns, `.error`
for the two `(nil, err)` returns. -/
def NewScraper (env1 env2 : LoginEnv) : Except String Unit :=
  match login false env1 with
  | .ok _ => .ok ()
  | .error e =>
    if strContains e "verification" then
      match login false env2 with
      | .ok _ => .ok ()
      | .error e2 =>
        .error ("failed to login even with verification: " ++ e2)
    else .error ("failed to login: " ++ e)

/-- Observable events of one run of the `Home` handler
(`server/handler.go`): responses written, scraper calls made, log lines,
the detached `go scraper.Close()` dispatch, and the nil-pointer panic that
a method call on a nil `*Scraper` raises. -/
inductive Ev where
  | resp (status : Nat)
  | callNewScraper
  | callPosts
  | callNameLoc
  | callExp
  | callEdu
  | logErr
  | goClose
  | panicNil
  deriving Repr, DecidableEq

/-- Oracle for one `Home` request: decoding and validation outcomes, the
two login oracles consumed by `NewScraper`, and each extraction step's
`chromedp` outcomes. -/
structure HomeEnv where
  decodeOk : Bool := true
  emailValid : Bool := true
  login1 : LoginEnv := {}
  login2 : LoginEnv := {}
  postsRunErr : Bool := false
  feedItems : List FeedItem := []
  nameLocErr : Bool := false
  name : String := ""
  location : String := ""
  expNavErr : Bool := false
  expEvalErr : Bool := false
  expItems : List ExpItem := []
  eduNavErr : Bool := false
  eduEvalErr : Bool := false
  eduItems : List EduItem := []
  deriving Repr

/-- The gated block of `Home` (`server/handler.go` lines 56-67): name and
location, then experiences, then education; every failure is logged, and
an education failure additionally writes a 500 response — with no
`return`, so the handler continues either way. -/
def homeGateBlock (env : HomeEnv) : List Ev :=
  [Ev.callNameLoc]
    ++ (if env.nameLocErr then [Ev.logErr] else [])
    ++ [Ev.callExp]
    ++ (if env.expNavErr || env.expEvalErr then [Ev.logErr] else [])
    ++ [Ev.callEdu]
    ++ (if env.eduNavErr || env.eduEvalErr then [Ev.logErr, Ev.resp 500]
        else [])

/-- The `Home` handler of `server/handler.go` as an event trace.

Translated statement by statement: decode failure writes 500 and returns;
an invalid email writes 400 and returns; a `NewScraper` error is only
logged (no `return`), after which `scraper` is nil and the
`scraper.GetRecentPosts()` call dereferences the nil receiver and panics;
otherwise the posts step runs (its failure only logged, leaving
`Profile.Posts` at its empty default), the remaining steps run iff
`len(scraper.Profile.Posts) <= 2`, `Close` is dispatched on a goroutine
and the 200 response is written. -/
def homeRun (env : HomeEnv) : List Ev :=
  if !env.decodeOk then [Ev.resp 500]
  else if !env.emailValid then [Ev.resp 400]
  else
    match NewScraper env.login1 env.login2 with
    | .error _ => [Ev.callNewScraper, Ev.logErr, Ev.callPosts, Ev.panicNil]
    | .ok _ =>
      let posts : List Post :=
        if env.postsRunErr then [] else getRecentPostsList env.feedItems
      [Ev.callNewScraper, Ev.callPosts]
        ++ (if env.postsRunErr then [Ev.logErr] else [])
        ++ (if posts.length ≤ 2 then homeGateBlock env else [])
        ++ [Ev.goClose, Ev.resp 200]

/-- The label set checked by `GetUsedParams` (`pkg/utils`, map keys). -/
def allParams : List String :=
  ["Posts", "Experience", "Education", "Location", "Name"]

/-- The check closure `GetUsedParams` builds for each label. -/
def paramCheck (p : Profile) : String → Bool
  | "Posts" => p.posts.length > 0
  | "Experience" => p.experience.length > 0
  | "Education" => p.education.length > 0
  | "Location" => p.location != ""
  | "Name" => p.name != ""
  | _ => false

/-- `GetUsedParams` of `pkg/utils`: iterates the check map in Go's
(nondeterministic) map order — modelled by an explicit enumeration
`order` of the keys — and keeps the labels whose check returns true. -/
def GetUsedParams (order : List String) (p : Profile) : List String :=
  order.filter (paramCheck p)

/-- A concrete rendered feed: a repost, a post with surrounding whitespace,
an item without the description wrapper, a break-words-only post, an item
whose two selectors trim to empty, and five further plain posts. -/
def demoFeed : List FeedItem :=
  [ { header := some "Alice reposted this", showMore := some "repost body" },
    { showMore := some " First post " },
    { wrapperPresent := false },
    { breakWords := some "Second post" },
    { showMore := some "", breakWords := some "  " },
    { showMore := some "Third" },
    { showMore := some "Fourth" },
    { showMore := some "Fifth" },
    { showMore := some "Sixth" } ]

/-- A request whose login submission fails with an opaque transport error
(no verification challenge involved), so `NewScraper` returns `(nil, err)`. -/
def authFailEnv : HomeEnv :=
  { login1 := { submitErr := some "context deadline exceeded" } }

/-- A login run that lands on the challenge address and still reports the
challenge address after the human signal. -/
def chalEnv : LoginEnv :=
  { url1 := "https://www.linkedin.com/checkpoint/challenge/x",
    url2 := "https://www.linkedin.com/checkpoint/challenge/x" }

/-- A profile whose only non-empty field is the experience list. -/
def expProfile : Profile :=
  { experience := [{ company := "Acme", duration := "2020", title := "Dev" }] }

/-- A request whose body fails to decode. -/
def invalidBodyEnv : HomeEnv := { decodeOk := false }

/-- A request whose email fails `mail.ParseAddress` validation. -/
def invalidEmailEnv : HomeEnv := { emailValid := false }

/-- Any post the map callback keeps has non-empty content. -/
theorem extractBody_some_content {it : FeedItem} {p : Post}
    (h : extractBody it = some p) : p.content ≠ "" := by
  unfold extractBody at h
  split_ifs at h with h1 h2
  rw [Option.some.injEq] at h
  subst h
  simpa using h2

/-- Any post `extractPost` keeps has non-empty content. -/
theorem extractPost_some_content {it : FeedItem} {p : Post}
    (h : extractPost it = some p) : p.content ≠ "" := by
  unfold extractPost at h
  split_ifs at h with hr
  exact extractBody_some_content h

/-- An item with a header containing the repost marker tests positive. -/
theorem headerIsRepost_true {it : FeedItem} {s : String}
    (h1 : it.header = some s)
    (h2 : strContains s "reposted this" = true) :
    headerIsRepost it = true := by
  unfold headerIsRepost
  rw [h1]
  exact h2

/-- An item whose header contains the repost marker maps to `null`. -/
theorem extractPost_repost_none {it : FeedItem} {s : String}
    (h1 : it.header = some s)
    (h2 : strContains s "reposted this" = true) :
    extractPost it = none := by
  unfold extractPost
  rw [if_pos (headerIsRepost_true h1 h2)]

/-- Claim C3: every result of the Posts script has at most 5 entries, each with
non-empty content (the current `Post` record has no title field, so no
entry can have both title and content empty), and the result is exactly
the 5-truncation of the qualifying items in rendered order — the script
filters first, then slices. -/
theorem C3_posts_result_invariant (items : List FeedItem) :
    (getRecentPostsList items).length ≤ 5 ∧
    (∀ p ∈ getRecentPostsList items, p.content ≠ "") ∧
    getRecentPostsList items = (items.filterMap extractPost).take 5 := by
  refine ⟨?_, ?_, rfl⟩
  · simp only [getRecentPostsList, List.length_take]
    exact min_le_left _ _
  · intro p hp
    have hp2 : p ∈ items.filterMap extractPost := List.mem_of_mem_take hp
    obtain ⟨it, _, h⟩ := List.mem_filterMap.mp hp2
    exact extractPost_some_content h

/-- C3 witness: the demo feed yields at most 5 posts and keeps the first
qualifying item, whose content is non-empty. -/
theorem C3_posts_result_invariant_witness :
    (getRecentPostsList demoFeed).length ≤ 5 ∧
    (Post.mk "First post").content ≠ "" := by
  refine ⟨(C3_posts_result_invariant demoFeed).1, ?_⟩
  exact (C3_posts_result_invariant demoFeed).2.1 (Post.mk "First post")
    (by decide)

/-- Claim C4: when the navigation-and-evaluation run succeeds, `GetRecentPosts`
returns success and stores the script result — the empty list included —
and it returns an error exactly when the run fails. -/
theorem C4_empty_posts_is_success (items : List FeedItem) (p : Profile) :
    GetRecentPostsStep false items p
      = Except.ok { p with posts := getRecentPostsList items } ∧
    (items.filterMap extractPost = [] →
      GetRecentPostsStep false items p = Except.ok { p with posts := [] }) ∧
    (∀ e, GetRecentPostsStep false items p ≠ Except.error e) ∧
    GetRecentPostsStep true items p = Except.error "failed to extract posts" := by
  refine ⟨rfl, ?_, ?_, rfl⟩
  · intro h
    simp [GetRecentPostsStep, getRecentPostsList, h]
  · intro e h
    simp [GetRecentPostsStep] at h

/-- C4 witness: a feed with zero qualifying items is stored as an empty
posts list under a success return. -/
theorem C4_empty_posts_is_success_witness :
    GetRecentPostsStep false [] {} = Except.ok ({ posts := [] } : Profile) :=
  (C4_empty_posts_is_success [] {}).2.1 rfl

/-- Claim C7: an item whose header contains the repost marker phrase is dropped
from the Posts result wherever it occurs in the rendered feed. -/
theorem C7_repost_always_excluded (pre suf : List FeedItem) (it : FeedItem)
    (s : String) (h1 : it.header = some s)
    (h2 : strContains s "reposted this" = true) :
    getRecentPostsList (pre ++ it :: suf) = getRecentPostsList (pre ++ suf) := by
  unfold getRecentPostsList
  rw [List.filterMap_append, List.filterMap_append,
    List.filterMap_cons_none (extractPost_repost_none h1 h2)]

/-- C7 witness: dropping a concrete repost between two plain posts leaves
the result unchanged. -/
theorem C7_repost_always_excluded_witness :
    getRecentPostsList
        ([({ showMore := some "A" } : FeedItem)] ++
          ({ header := some "Bob reposted this", showMore := some "B" } : FeedItem) ::
          [({ showMore := some "C" } : FeedItem)]) =
      getRecentPostsList
        ([({ showMore := some "A" } : FeedItem)] ++
          [({ showMore := some "C" } : FeedItem)]) :=
  C7_repost_always_excluded _ _ _ "Bob reposted this" rfl (by decide)

/-- The shape of `login` once the post-submission address reads succeeded
and the address matches the challenge path. -/
theorem login_challenge_shape (headless : Bool) (env : LoginEnv)
    (hs1 : env.submitErr = none) (hs2 : env.locErr = none)
    (hch : strContains env.url1 "checkpoint/challenge" = true) :
    login headless env =
      if headless then
        Except.error "verification required, please retry with headless=false"
      else
        match env.locErr2 with
        | some e => Except.error e
        | none =>
          if strContains env.url2 "checkpoint/challenge" then
            Except.error "verification was not completed successfully"
          else Except.ok true := by
  simp [login, hs1, hs2, hch]

/-- Claim C5: with the post-submission address on the challenge path, `login`
can only return success through the manual-resolution branch (the
returned flag records that the human wait was passed), and when the
address still matches the challenge path after the human signal the run
fails with the verification-not-completed error. -/
theorem C5_no_direct_challenge_to_auth (headless : Bool) (env : LoginEnv)
    (hs1 : env.submitErr = none) (hs2 : env.locErr = none)
    (hch : strContains env.url1 "checkpoint/challenge" = true) :
    (∀ b, login headless env = Except.ok b → b = true) ∧
    (headless = false → env.locErr2 = none →
      strContains env.url2 "checkpoint/challenge" = true →
      login headless env =
        Except.error "verification was not completed successfully") := by
  constructor
  · intro b hb
    rw [login_challenge_shape headless env hs1 hs2 hch] at hb
    cases headless
    · cases h3 : env.locErr2 <;> rw [h3] at hb <;> simp at hb
      by_cases h4 : strContains env.url2 "checkpoint/challenge" = true
      · simp [h4] at hb
      · simp [h4] at hb
        exact hb
    · simp at hb
  · intro h0 h3 h4
    subst h0
    rw [login_challenge_shape false env hs1 hs2 hch, h3]
    simp [h4]

/-- C5 witness: a run landing on the challenge address and still on it
after the human signal ends in the verification-not-completed error. -/
theorem C5_no_direct_challenge_to_auth_witness :
    login false chalEnv =
      Except.error "verification was not completed successfully" :=
  (C5_no_direct_challenge_to_auth false chalEnv rfl rfl (by decide)).2
    rfl rfl (by decide)

/-- Claim C1: on a request that decodes, validates and authenticates, and whose
posts step run succeeds, the `Home` handler runs each of the
name-and-location, experiences and education steps exactly when the
number of extracted posts is at most 2. -/
theorem C1_gate_exact_on_post_count (env : HomeEnv)
    (hd : env.decodeOk = true) (he : env.emailValid = true)
    (hs : NewScraper env.login1 env.login2 = Except.ok ())
    (hp : env.postsRunErr = false) :
    (Ev.callNameLoc ∈ homeRun env ↔
      (getRecentPostsList env.feedItems).length ≤ 2) ∧
    (Ev.callExp ∈ homeRun env ↔
      (getRecentPostsList env.feedItems).length ≤ 2) ∧
    (Ev.callEdu ∈ homeRun env ↔
      (getRecentPostsList env.feedItems).length ≤ 2) := by
  by_cases hL : (getRecentPostsList env.feedItems).length ≤ 2 <;>
    cases h1 : env.nameLocErr <;>
    cases h2 : (env.expNavErr || env.expEvalErr) <;>
    cases h3 : (env.eduNavErr || env.eduEvalErr) <;>
      simp [homeRun, homeGateBlock, hd, he, hs, hp, hL, h1, h2, h3]

/-- C1 witness: with zero extracted posts all three gated steps run. -/
theorem C1_gate_exact_on_post_count_witness :
    Ev.callNameLoc ∈ homeRun {} ∧ Ev.callExp ∈ homeRun {} ∧
    Ev.callEdu ∈ homeRun {} := by
  obtain ⟨a, b, c⟩ := C1_gate_exact_on_post_count {} rfl rfl rfl rfl
  exact ⟨a.mpr (by decide), b.mpr (by decide), c.mpr (by decide)⟩

/-- Claim C2: when `NewScraper` fails (here: an opaque transport error during
login submission), the `Home` handler does not abort — it logs the
error, then still invokes `GetRecentPosts` on the nil scraper, which
panics; no response, error or success, is ever written. -/
theorem C2_auth_error_not_aborting :
    NewScraper authFailEnv.login1 authFailEnv.login2 =
      Except.error "failed to login: context deadline exceeded" ∧
    homeRun authFailEnv =
      [Ev.callNewScraper, Ev.logErr, Ev.callPosts, Ev.panicNil] ∧
    Ev.callPosts ∈ homeRun authFailEnv ∧
    (∀ st, Ev.resp st ∉ homeRun authFailEnv) := by
  refine ⟨rfl, by decide, by decide, ?_⟩
  intro st h
  rw [show homeRun authFailEnv =
    [Ev.callNewScraper, Ev.logErr, Ev.callPosts, Ev.panicNil] from by decide] at h
  simp at h

/-- Claim C6: with the gate open, the handler runs all three gated steps no
matter which of them fail; a 500 response appears in the trace exactly
when the education step fails (identity and experience failures are only
logged), and teardown plus the final 200 write still happen. -/
theorem C6_step_failure_asymmetry (env : HomeEnv)
    (hd : env.decodeOk = true) (he : env.emailValid = true)
    (hs : NewScraper env.login1 env.login2 = Except.ok ())
    (hp : env.postsRunErr = false)
    (hg : (getRecentPostsList env.feedItems).length ≤ 2) :
    Ev.callNameLoc ∈ homeRun env ∧ Ev.callExp ∈ homeRun env ∧
    Ev.callEdu ∈ homeRun env ∧
    (Ev.resp 500 ∈ homeRun env ↔ (env.eduNavErr || env.eduEvalErr) = true) ∧
    Ev.goClose ∈ homeRun env ∧ Ev.resp 200 ∈ homeRun env := by
  cases h1 : env.nameLocErr <;>
    cases h2 : (env.expNavErr || env.expEvalErr) <;>
    cases h3 : (env.eduNavErr || env.eduEvalErr) <;>
      simp [homeRun, homeGateBlock, hd, he, hs, hp, hg, h1, h2, h3]

/-- C6 witness: with experience and education both failing, education is
still attempted and the 500 response is written. -/
theorem C6_step_failure_asymmetry_witness :
    Ev.callEdu ∈ homeRun { expNavErr := true, eduNavErr := true } ∧
    Ev.resp 500 ∈ homeRun { expNavErr := true, eduNavErr := true } := by
  have h := C6_step_failure_asymmetry { expNavErr := true, eduNavErr := true }
    rfl rfl rfl rfl (by decide)
  exact ⟨h.2.2.1, h.2.2.2.1.mpr rfl⟩

/-- Claim C8: each extraction step, on success, writes exactly its own field or
field group of the profile and leaves every other field unchanged;
`GetExperiences` does store the extracted experience list. -/
theorem C8_steps_write_only_their_fields (p q : Profile) :
    (∀ rErr items, GetRecentPostsStep rErr items p = Except.ok q →
      q.name = p.name ∧ q.location = p.location ∧ q.about = p.about ∧
      q.experience = p.experience ∧ q.education = p.education ∧
      q.posts = getRecentPostsList items) ∧
    (∀ rErr nm loc, GetNameAndLocationStep rErr nm loc p = Except.ok q →
      q.about = p.about ∧ q.experience = p.experience ∧
      q.education = p.education ∧ q.posts = p.posts ∧
      q.name = nm ∧ q.location = loc) ∧
    (∀ nErr eErr items, GetExperiencesStep nErr eErr items p = Except.ok q →
      q.name = p.name ∧ q.location = p.location ∧ q.about = p.about ∧
      q.education = p.education ∧ q.posts = p.posts ∧
      q.experience = getExperiencesList items) ∧
    (∀ nErr eErr items, GetEducationStep nErr eErr items p = Except.ok q →
      q.name = p.name ∧ q.location = p.location ∧ q.about = p.about ∧
      q.experience = p.experience ∧ q.posts = p.posts ∧
      q.education = getEducationList items) ∧
    (∀ rErr ab, GetAboutStep rErr ab p = Except.ok q →
      q.name = p.name ∧ q.location = p.location ∧
      q.experience = p.experience ∧ q.education = p.education ∧
      q.posts = p.posts ∧ q.about = ab) := by
  refine ⟨?_, ?_, ?_, ?_, ?_⟩
  · intro rErr items h
    cases rErr <;> simp [GetRecentPostsStep] at h
    subst h
    simp
  · intro rErr nm loc h
    cases rErr <;> simp [GetNameAndLocationStep] at h
    subst h
    simp
  · intro nErr eErr items h
    cases nErr <;> cases eErr <;> simp [GetExperiencesStep] at h
    subst h
    simp
  · intro nErr eErr items h
    cases nErr <;> cases eErr <;> simp [GetEducationStep] at h
    subst h
    simp
  · intro rErr ab h
    cases rErr <;> simp [GetAboutStep] at h
    subst h
    simp

/-- C8 witness: a successful posts step on the empty profile sets exactly
the posts field. -/
theorem C8_steps_write_only_their_fields_witness :
    ({ posts := [Post.mk "X"] } : Profile).name = "" ∧
    ({ posts := [Post.mk "X"] } : Profile).posts =
      getRecentPostsList [{ showMore := some "X" }] := by
  have h := (C8_steps_write_only_their_fields {}
    { posts := [Post.mk "X"] }).1 false [{ showMore := some "X" }] rfl
  exact ⟨h.1, h.2.2.2.2.2⟩

/-- Claim C9: for any iteration order of the check map (Go map iteration order
is unspecified), `GetUsedParams` returns, without duplicates, exactly the
labels among Posts, Experience, Education, Location and Name whose
profile field is non-empty; in particular Experience appears iff the
experience list is non-empty. -/
theorem C9_params_used_characterisation (order : List String) (p : Profile)
    (h : order.Perm allParams) :
    (∀ s, s ∈ GetUsedParams order p ↔
      s ∈ allParams ∧ paramCheck p s = true) ∧
    (GetUsedParams order p).Nodup ∧
    ("Experience" ∈ GetUsedParams order p ↔ p.experience ≠ []) := by
  have hmem : ∀ s, s ∈ GetUsedParams order p ↔
      s ∈ allParams ∧ paramCheck p s = true := by
    intro s
    rw [GetUsedParams, List.mem_filter, h.mem_iff]
  refine ⟨hmem, ?_, ?_⟩
  · exact ((h.nodup_iff).mpr (by decide)).filter _
  · rw [hmem "Experience"]
    rw [show paramCheck p "Experience" =
      decide (p.experience.length > 0) from rfl]
    simp [(by decide : ("Experience" : String) ∈ allParams),
      List.length_pos]

/-- C9 witness: for a concrete iteration order and a profile whose only
non-empty field is experience, the label Experience is returned. -/
theorem C9_params_used_characterisation_witness :
    "Experience" ∈ GetUsedParams
      ["Name", "Experience", "Posts", "Location", "Education"] expProfile := by
  have h := C9_params_used_characterisation
    ["Name", "Experience", "Posts", "Location", "Education"] expProfile
    (by decide)
  exact h.2.2.mpr (by decide)

/-- Claim C10: a request whose body fails to decode gets a 500 response and
nothing else, a decoded request with an invalid email gets a 400
response and nothing else; in both cases no scraper is ever constructed. -/
theorem C10_invalid_request_no_session (env : HomeEnv) :
    (env.decodeOk = false →
      homeRun env = [Ev.resp 500] ∧ Ev.callNewScraper ∉ homeRun env) ∧
    (env.decodeOk = true → env.emailValid = false →
      homeRun env = [Ev.resp 400] ∧ Ev.callNewScraper ∉ homeRun env) := by
  constructor
  · intro h
    simp [homeRun, h]
  · intro h1 h2
    simp [homeRun, h1, h2]

/-- C10 witness: concrete invalid-body and invalid-email requests. -/
theorem C10_invalid_request_no_session_witness :
    homeRun invalidBodyEnv = [Ev.resp 500] ∧
    homeRun invalidEmailEnv = [Ev.resp 400] :=
  ⟨((C10_invalid_request_no_session invalidBodyEnv).1 rfl).1,
   ((C10_invalid_request_no_session invalidEmailEnv).2 rfl rfl).1⟩

end Segwise
